import Mathlib

/-!
Shallow embedding of the tooltip controller from src/src/tooltip/index.js.

The DOM substrate (element creation, attribute reads, style writes, event
attach/detach, containment queries) is out of scope per the specification
and is modelled as primitive data: elements are natural-number identifiers,
an event is a record of the fields the code reads, and containment or
querySelector results are supplied by an environment record. The stateful
methods of the Tooltip class become explicit state-passing functions; a
JavaScript TypeError raised by dereferencing undefined or null, or by
calling a method on a non-element value, is modelled as Except.error.
-/

set_option autoImplicit false

namespace Tooltip

/-- DOM elements are identified by natural numbers. -/
abbrev ElemId := Nat

/-- The value of options.title: a plain string, a DOM node, or a function
(modelled by the string it returns when called). -/
inductive TitleVal where
  | str (s : String)
  | node (id : ElemId)
  | fn (ret : String)
deriving DecidableEq, BEq

/-- JavaScript truthiness of a title value: the empty string is falsy,
a DOM node or a function is truthy. -/
def titleTruthy : TitleVal → Bool
  | TitleVal.str s => !(s == "")
  | TitleVal.node _ => true
  | TitleVal.fn _ => true

/-- The value of options.container: an explicit element, a CSS selector
string, or the literal false. -/
inductive Container where
  | el (id : ElemId)
  | sel (s : String)
  | noContainer
deriving DecidableEq, BEq

/-- The value of options.delay: a plain number or an object with show and
hide fields. -/
inductive Delay where
  | num (n : Nat)
  | pair (showMs hideMs : Nat)
deriving DecidableEq, BEq

/-- The merged options record (user options over DEFAULT_OPTIONS). -/
structure Options where
  container : Container
  delay : Delay
  html : Bool
  placement : String
  title : TitleVal
  template : String
  trigger : String
  boundariesElement : Option ElemId
  offset : Nat
deriving DecidableEq, BEq

/-- DEFAULT_OPTIONS from the source. -/
def DEFAULT_OPTIONS : Options :=
  { container := Container.noContainer
    delay := Delay.num 0
    html := false
    placement := "top"
    title := TitleVal.str ""
    template := "<div class=\"tooltip\" role=\"tooltip\"><div class=\"tooltip-arrow\"></div><div class=\"tooltip-inner\"></div></div>"
    trigger := "hover focus"
    boundariesElement := none
    offset := 0 }

/-- The reference element: its identity, its parentNode, and its live
title attribute (none when absent; getAttribute then returns null). -/
structure RefElem where
  id : ElemId
  parent : Option ElemId
  titleAttr : Option String
deriving DecidableEq, BEq

/-- One controller's fixed data: the reference element, the merged
options, and two DOM primitives consumed on node creation: whether
querySelector(innerSelector) on the parsed template finds an inner node,
and the identity createElement will give the new tooltip node. -/
structure Config where
  reference : RefElem
  options : Options
  templateHasInner : Bool
  freshNodeId : Nat
deriving DecidableEq, BEq

/-- A recorded (event, callback) pair; callbacks are distinguished by a
sequential identity, matching JavaScript closure identity. -/
structure Listener where
  event : String
  funcId : Nat
deriving DecidableEq, BEq

/-- The created tooltip DOM node: identity, style.display, the content
injected into the inner sub-node, and its parentNode after append. -/
structure TNode where
  id : Nat
  display : String
  content : String
  parentNode : Option ElemId
deriving DecidableEq, BEq

/-- Options passed to the positioning engine constructor. -/
structure PopperOptions where
  placement : String
  arrowElement : String
  boundariesElement : Option ElemId
deriving DecidableEq, BEq

/-- The positioning engine handle: creation arguments plus whether
destroy() has been called and how many times update() has been called.
Treated as an opaque black box per the specification. -/
structure PopperHandle where
  refId : ElemId
  nodeId : Nat
  popperOptions : PopperOptions
  destroyed : Bool
  updates : Nat
deriving DecidableEq, BEq

/-- new Popper(reference, tooltipNode, popperOptions). -/
def popperCreate (refId : ElemId) (nodeId : Nat) (po : PopperOptions) : PopperHandle :=
  { refId := refId, nodeId := nodeId, popperOptions := po, destroyed := false, updates := 0 }

/-- A TypeError raised at the DOM boundary: dereferencing an undefined or
null value, or calling appendChild on a value that is not an element. -/
inductive Err where
  | nullDeref
  | appendTypeError
deriving DecidableEq, BEq

/-- The mutable per-controller state: _isOpen, _tooltipNode,
popperInstance, the listeners currently attached to the reference element
and to the tooltip node (DOM substrate), the _events record, and the next
closure identity. -/
structure State where
  isOpen : Bool
  tooltipNode : Option TNode
  popperInstance : Option PopperHandle
  refListeners : List Listener
  tooltipNodeListeners : List Listener
  events : List Listener
  nextFuncId : Nat
deriving DecidableEq, BEq

/-- this.arrowSelector. -/
def arrowSelector : String := ".tooltip-arrow, .tooltip__arrow"

/-- this.innerSelector. -/
def innerSelector : String := ".tooltip-inner, .tooltip__inner"

/-- Constructor: trigger string split on spaces and filtered to the
recognized tokens click, hover, focus. -/
def parseEvents (trigger : String) : List String :=
  (trigger.splitOn " ").filter
    (fun t => t == "click" || t == "hover" || t == "focus")

/-- The direct event name for a trigger token (_setEventListeners). -/
def directEvent : String → Option String
  | "hover" => some "mouseenter"
  | "focus" => some "focus"
  | "click" => some "click"
  | _ => none

/-- The opposite event name for a trigger token (_setEventListeners). -/
def oppositeEvent : String → Option String
  | "hover" => some "mouseleave"
  | "focus" => some "blur"
  | "click" => some "click"
  | _ => none

/-- _setEventListeners: each direct event, then each opposite event, is
attached to the reference element and pushed onto _events, with closure
identities assigned in attach order. The source maps the pre-filtered
trigger tokens, so the default switch branch returning undefined is
unreachable; filterMap therefore attaches the same listeners. -/
def mkListeners (events : List String) : List Listener :=
  let direct := events.filterMap directEvent
  let opposite := (events.map oppositeEvent).filterMap id
  (direct ++ opposite).enum.map (fun p => { event := p.2, funcId := p.1 })

/-- The state the constructor leaves the controller in: closed, no
tooltip node, no popper instance, trigger listeners attached to the
reference and recorded in _events. -/
def initTooltip (cfg : Config) : State :=
  let ls := mkListeners (parseEvents cfg.options.trigger)
  { isOpen := false
    tooltipNode := none
    popperInstance := none
    refListeners := ls
    tooltipNodeListeners := []
    events := ls
    nextFuncId := ls.length }

/-- reference.getAttribute(title-attribute) followed by JavaScript or:
null (attribute absent) and the empty string are falsy, so the configured
default title is used; a non-empty attribute value wins. -/
def jsOrTitle (attr : Option String) (dflt : TitleVal) : TitleVal :=
  match attr with
  | some s => if s == "" then dflt else TitleVal.str s
  | none => dflt

/-- _create: parse the template, locate the inner sub-node via
querySelector(innerSelector), and inject the title. A node title is
appended only when allowHtml is true (the conjunction short-circuits, so
a missing inner node is not dereferenced in that branch when allowHtml is
false); a function title is called and its return injected; a string is
injected directly. innerHTML and innerText both store the title text in
the content field of this model. A missing inner sub-node makes the
injection dereference null. -/
def _create (cfg : Config) (title : TitleVal) : Except Err TNode :=
  let fresh : TNode :=
    { id := cfg.freshNodeId, display := "", content := "", parentNode := none }
  match title with
  | TitleVal.node nid =>
    if cfg.options.html then
      if cfg.templateHasInner then
        Except.ok { fresh with content := "node:" ++ toString nid }
      else Except.error Err.nullDeref
    else Except.ok fresh
  | TitleVal.fn ret =>
    if cfg.templateHasInner then Except.ok { fresh with content := ret }
    else Except.error Err.nullDeref
  | TitleVal.str s =>
    if cfg.templateHasInner then Except.ok { fresh with content := s }
    else Except.error Err.nullDeref

/-- The value _show passes to _append: options.container when it is not
false, otherwise reference.parentNode (which may itself be null). -/
inductive AppendTarget where
  | elemT (id : ElemId)
  | strT (s : String)
  | nullT
deriving DecidableEq, BEq

/-- The ternary in _show computing the append target. -/
def appendTargetOf (cfg : Config) : AppendTarget :=
  match cfg.options.container with
  | Container.noContainer =>
    match cfg.reference.parent with
    | some p => AppendTarget.elemT p
    | none => AppendTarget.nullT
  | Container.el i => AppendTarget.elemT i
  | Container.sel s => AppendTarget.strT s

/-- _append: container.appendChild(tooltipNode). Only an element value
supports appendChild; calling it on a string or on null raises a
TypeError. -/
def _append (tnode : TNode) (c : AppendTarget) : Except Err TNode :=
  match c with
  | AppendTarget.elemT i => Except.ok { tnode with parentNode := some i }
  | AppendTarget.strT _ => Except.error Err.appendTypeError
  | AppendTarget.nullT => Except.error Err.appendTypeError

/-- _findContainer from the source: a string container is resolved by
document.querySelector, and false resolves to document.body. The method
exists in the source but _show never calls it. The document primitives
are supplied as an environment. -/
structure Doc where
  querySelector : String → Option ElemId
  bodyId : ElemId

/-- _findContainer(container). -/
def _findContainer (d : Doc) : Container → Option ElemId
  | Container.sel s => d.querySelector s
  | Container.noContainer => some d.bodyId
  | Container.el i => some i

/-- _show: no-op when already open; _isOpen is set to true before
anything else. An existing tooltip node is re-shown (display cleared,
popper updated). Otherwise the title is resolved from the reference's
title attribute with the configured default as fallback, and a falsy
title returns early (with _isOpen left true). Otherwise the node is
created, appended to the computed container value, and the popper
instance is created; popperInstance is assigned before _tooltipNode, and
both in the same synchronous step. -/
def _show (cfg : Config) (s : State) : Except Err State :=
  if s.isOpen then Except.ok s else
  let s1 : State := { s with isOpen := true }
  match s1.tooltipNode with
  | some t =>
    match s1.popperInstance with
    | some p =>
      Except.ok { s1 with
        tooltipNode := some { t with display := "" }
        popperInstance := some { p with updates := p.updates + 1 } }
    | none => Except.error Err.nullDeref
  | none =>
    let title := jsOrTitle cfg.reference.titleAttr cfg.options.title
    if !titleTruthy title then Except.ok s1 else
    match _create cfg title with
    | Except.error e => Except.error e
    | Except.ok tnode =>
      match _append tnode (appendTargetOf cfg) with
      | Except.error e => Except.error e
      | Except.ok tnode2 =>
        let po : PopperOptions :=
          { placement := cfg.options.placement
            arrowElement := arrowSelector
            boundariesElement := cfg.options.boundariesElement }
        Except.ok { s1 with
          tooltipNode := some tnode2
          popperInstance := some (popperCreate cfg.reference.id tnode2.id po) }

/-- _hide: no-op when already closed; otherwise _isOpen is cleared and
the tooltip node's display style is set to none. When _tooltipNode is
undefined the style access raises a TypeError. -/
def _hide (s : State) : Except Err State :=
  if !s.isOpen then Except.ok s else
  match s.tooltipNode with
  | none => Except.error Err.nullDeref
  | some t =>
    Except.ok { s with isOpen := false, tooltipNode := some { t with display := "none" } }

/-- The removeEventListener loop in _dispose: every pair recorded in
_events is removed from the tooltip node's listeners (removing a pair
that is not attached there is a DOM no-op). -/
def removeRecorded (recorded : List Listener) (attached : List Listener) : List Listener :=
  recorded.foldl (fun ls l => ls.erase l) attached

/-- _dispose: when a tooltip node exists, hide it, call destroy on the
popper instance (the popperInstance field itself is never cleared),
remove every recorded listener from the tooltip node and empty _events,
remove the node from its parent, and clear _tooltipNode. Without a
tooltip node the call returns immediately. -/
def _dispose (s : State) : Except Err State :=
  match s.tooltipNode with
  | none => Except.ok s
  | some _ =>
    match _hide s with
    | Except.error e => Except.error e
    | Except.ok s1 =>
      match s1.popperInstance with
      | none => Except.error Err.nullDeref
      | some p =>
        let s2 : State := { s1 with popperInstance := some { p with destroyed := true } }
        let s3 : State := { s2 with
          tooltipNodeListeners := removeRecorded s2.events s2.tooltipNodeListeners
          events := [] }
        match s3.tooltipNode with
        | none => Except.error Err.nullDeref
        | some t =>
          match t.parentNode with
          | none => Except.error Err.nullDeref
          | some _ => Except.ok { s3 with tooltipNode := none }

/-- The four public operations; toggle dispatches on _isOpen. -/
inductive Op where
  | showOp
  | hideOp
  | toggleOp
  | disposeOp
deriving DecidableEq, BEq

/-- Apply one public operation: show(), hide(), toggle(), dispose(). -/
def applyOp (cfg : Config) : Op → State → Except Err State
  | Op.showOp, s => _show cfg s
  | Op.hideOp, s => _hide s
  | Op.toggleOp, s => if s.isOpen then _hide s else _show cfg s
  | Op.disposeOp, s => _dispose s

/-- The states a controller can reach: the constructor's state, closed
under every public operation that returns normally. -/
inductive Reachable (cfg : Config) : State → Prop where
  | init : Reachable cfg (initTooltip cfg)
  | step {s s' : State} (op : Op) :
      Reachable cfg s → applyOp cfg op s = Except.ok s' → Reachable cfg s'

/-- A DOM event as the scheduler sees it: its type, the standard
relatedTarget field carried by mouse events, the legacy toElement field,
the nonstandard relatedreference field (never set by the DOM event
substrate, but read by the code), and the usedByTooltip mark. -/
structure Event where
  type : String
  relatedTarget : Option ElemId
  relatedreference : Option ElemId
  toElement : Option ElemId
  usedByTooltip : Bool
deriving DecidableEq, BEq

/-- DOM containment primitives consumed by the hide timer:
document.body.contains and Node.contains. -/
structure Dom where
  bodyContains : ElemId → Bool
  contains : ElemId → ElemId → Bool

/-- JavaScript or on two element-or-undefined values: an element is
truthy, undefined is falsy. -/
def jsOrElem (a b : Option ElemId) : Option ElemId :=
  match a with
  | some x => some x
  | none => b

/-- _isElOrChildOfEl(a, b) where a may be undefined: strict equality of
undefined with an element is false, and b.contains(undefined) is false. -/
def isElOrChildOfEl (dom : Dom) (a : Option ElemId) (b : ElemId) : Bool :=
  match a with
  | some x => x == b || dom.contains b x
  | none => false

/-- _setTooltipNodeEvent: resolve the related element of the leave event
as evt.relatedreference falling back to evt.toElement; if that element is
the tooltip node or a descendant of it, attach a one-shot listener for
the same event type on the tooltip node and report true, otherwise
report false. When _tooltipNode is undefined the containment test (or
the subsequent addEventListener) raises a TypeError. -/
def _setTooltipNodeEvent (dom : Dom) (evt : Event) (s : State) :
    Except Err (Bool × State) :=
  let relatedreference := jsOrElem evt.relatedreference evt.toElement
  match s.tooltipNode with
  | none => Except.error Err.nullDeref
  | some t =>
    if isElOrChildOfEl dom relatedreference t.id then
      Except.ok (true,
        { s with
          tooltipNodeListeners :=
            s.tooltipNodeListeners ++ [{ event := evt.type, funcId := s.nextFuncId }]
          nextFuncId := s.nextFuncId + 1 })
    else Except.ok (false, s)

/-- The body of the one-shot timer armed by _scheduleHide: abort when
already closed or when the tooltip node is no longer in the document
(document.body.contains of undefined is false); for a mouseleave event
run the pointer-transfer check and stop if it attached the new listener;
otherwise call _hide. -/
def scheduleHideTimerBody (dom : Dom) (evt : Event) (s : State) : Except Err State :=
  if s.isOpen == false then Except.ok s else
  if !(match s.tooltipNode with
       | some t => dom.bodyContains t.id
       | none => false) then Except.ok s else
  if evt.type == "mouseleave" then
    match _setTooltipNodeEvent dom evt s with
    | Except.error e => Except.error e
    | Except.ok (true, s1) => Except.ok s1
    | Except.ok (false, s1) => _hide s1
  else _hide s

/-! ## Concrete fixtures -/

/-- A reference element with a non-empty title attribute and a parent. -/
def refW : RefElem := { id := 1, parent := some 0, titleAttr := some "Hi" }

/-- A controller over refW with the default options. -/
def cfgW : Config :=
  { reference := refW
    options := DEFAULT_OPTIONS
    templateHasInner := true
    freshNodeId := 2 }

/-- A controller whose reference has no title attribute; the default
options leave the configured title as the empty string. -/
def cfgNoTitle : Config :=
  { reference := { id := 1, parent := some 0, titleAttr := none }
    options := DEFAULT_OPTIONS
    templateHasInner := true
    freshNodeId := 2 }

/-- The state of cfgW after a first successful show(). -/
def shownW : State :=
  match _show cfgW (initTooltip cfgW) with
  | Except.ok s => s
  | Except.error _ => initTooltip cfgW

/-- The tooltip node shownW holds. -/
def nodeW : TNode := { id := 2, display := "", content := "Hi", parentNode := some 0 }

/-- The state of cfgW after show() then dispose(). -/
def disposedW : State :=
  match _dispose shownW with
  | Except.ok s => s
  | Except.error _ => shownW

/-- A DOM where element 2 (the tooltip node) is inside document.body and
nothing has children. -/
def domW : Dom :=
  { bodyContains := fun i => i == 2
    contains := fun _ _ => false }

/-- A standards-browser mouseleave event: the pointer moved onto the
tooltip node (relatedTarget = element 2); the legacy toElement field and
the nonstandard relatedreference field are absent. -/
def evtLeaveStd : Event :=
  { type := "mouseleave"
    relatedTarget := some 2
    relatedreference := none
    toElement := none
    usedByTooltip := false }

/-- A controller whose container option is a CSS selector string. -/
def cfgSelC3 : Config :=
  { reference := { id := 1, parent := some 0, titleAttr := some "Hi" }
    options := { DEFAULT_OPTIONS with container := Container.sel "#tooltips" }
    templateHasInner := true
    freshNodeId := 2 }

/-- A document in which the selector of cfgSelC3 resolves to element 9. -/
def docC3 : Doc :=
  { querySelector := fun s => if s == "#tooltips" then some 9 else none
    bodyId := 0 }

/-! ## Claim theorems -/

/-- C1 (code evaluation at the failing input): with no title attribute
and the default empty title, show() on a fresh controller creates no
floating element, but it leaves _isOpen equal to true, because _show
sets the flag before the title check and the falsy-title early return
does not restore it. The claim says isOpen stays false. -/
theorem c1_show_empty_title_sets_open_flag :
    (initTooltip cfgNoTitle).isOpen = false ∧
    _show cfgNoTitle (initTooltip cfgNoTitle) =
      Except.ok { initTooltip cfgNoTitle with isOpen := true } ∧
    (initTooltip cfgNoTitle).tooltipNode = none :=
  ⟨rfl, rfl, rfl⟩

/-- C2 (code evaluation at the failing input): the hide timer fires for a
mouseleave whose standard relatedTarget is the floating element itself,
with the legacy toElement absent. The code resolves the moved-onto
element as evt.relatedreference with fallback evt.toElement, never
reading relatedTarget, so the pointer-transfer check fails: the tooltip
is hidden and no one-shot listener is attached to the floating element.
The claim says the tooltip must not be hidden and a listener must be
attached. -/
theorem c2_hide_timer_ignores_relatedTarget :
    shownW.isOpen = true ∧
    shownW.tooltipNode = some nodeW ∧
    evtLeaveStd.relatedTarget = some nodeW.id ∧
    evtLeaveStd.type = "mouseleave" ∧
    scheduleHideTimerBody domW evtLeaveStd shownW =
      Except.ok { shownW with
        isOpen := false
        tooltipNode := some { nodeW with display := "none" } } :=
  ⟨rfl, rfl, rfl, rfl, rfl⟩

/-- C3 (code evaluation at the failing input): with a CSS-selector string
as the configured container, the first show() passes the raw string to
_append, whose appendChild call is a TypeError; the selector is never
resolved against the document, although the unused _findContainer method
would resolve it to an element. The claim says the floating element is
appended into the element the selector resolves to. -/
theorem c3_string_container_append_crashes :
    _show cfgSelC3 (initTooltip cfgSelC3) = Except.error Err.appendTypeError ∧
    _findContainer docC3 (Container.sel "#tooltips") = some 9 :=
  ⟨rfl, rfl⟩

/-- C4 (counterexample): after show() then dispose() — a reachable
state — the floating node reference is cleared but the positioning
handle reference is still present (dispose destroys the instance without
clearing the field), so the claimed iff between the two presences fails. -/
theorem c4_counterexample :
    Reachable cfgW disposedW ∧
    disposedW.tooltipNode = none ∧
    disposedW.popperInstance.isSome = true :=
  ⟨Reachable.step Op.disposeOp (Reachable.step Op.showOp Reachable.init rfl) rfl,
   rfl, rfl⟩

/-- C6: hide() on a closed controller is a no-op: the whole state —
isOpen, tooltip node, popper instance, and all listener records — is
returned unchanged. -/
theorem c6_hide_closed_noop (s : State) (h : s.isOpen = false) :
    _hide s = Except.ok s := by
  simp [_hide, h]

/-- Witness for c6_hide_closed_noop at the freshly constructed state. -/
theorem c6_witness :
    _hide (initTooltip cfgW) = Except.ok (initTooltip cfgW) :=
  c6_hide_closed_noop (initTooltip cfgW) rfl

/-- C10: when the reference carries no non-empty title attribute and the
configured default title is the empty string, show() on a closed
controller without a node returns with _isOpen set to true and no node
created, and the following hide() passes its open-guard and dereferences
the undefined _tooltipNode, raising a TypeError. -/
theorem c10_show_then_hide_null_deref (cfg : Config) (s : State)
    (hopen : s.isOpen = false) (hnode : s.tooltipNode = none)
    (hattr : cfg.reference.titleAttr = none ∨ cfg.reference.titleAttr = some "")
    (htitle : cfg.options.title = TitleVal.str "") :
    _show cfg s = Except.ok { s with isOpen := true } ∧
    _hide { s with isOpen := true } = Except.error Err.nullDeref := by
  constructor
  · rcases hattr with h | h <;>
      simp [_show, hopen, hnode, h, htitle, jsOrTitle, titleTruthy]
  · simp [_hide, hnode]

/-- Witness for c10_show_then_hide_null_deref on a fresh controller with
no title attribute and the default options. -/
theorem c10_witness :
    _show cfgNoTitle (initTooltip cfgNoTitle) =
      Except.ok { initTooltip cfgNoTitle with isOpen := true } ∧
    _hide { initTooltip cfgNoTitle with isOpen := true } =
      Except.error Err.nullDeref :=
  c10_show_then_hide_null_deref cfgNoTitle (initTooltip cfgNoTitle)
    rfl rfl (Or.inl rfl) rfl

/-- C5: show() when already open returns the state unchanged (no
duplicate floating element); and whenever the floating element already
exists (with its popper instance) on a closed controller, show() reuses
that same element — same identity — clearing its display style and
incrementing the popper instance's update count, instead of creating a
new node. -/
theorem c5_show_noop_and_reuse (cfg : Config) (s : State) :
    (s.isOpen = true → _show cfg s = Except.ok s) ∧
    (∀ t p, s.isOpen = false → s.tooltipNode = some t → s.popperInstance = some p →
      _show cfg s = Except.ok
        { s with
          isOpen := true
          tooltipNode := some { t with display := "" }
          popperInstance := some { p with updates := p.updates + 1 } }) := by
  constructor
  · intro h
    simp [_show, h]
  · intro t p h1 h2 h3
    simp [_show, h1, h2, h3]

/-- Witness for c5_show_noop_and_reuse: show() on the opened state is the
identity, and show() after hide() reuses the node with identity 2. -/
theorem c5_witness :
    _show cfgW shownW = Except.ok shownW ∧
    _show cfgW { shownW with isOpen := false } = Except.ok
      { { shownW with isOpen := false } with
        isOpen := true
        tooltipNode := some { nodeW with display := "" }
        popperInstance := some
          { popperCreate 1 2
              { placement := "top", arrowElement := arrowSelector,
                boundariesElement := none } with updates := 1 } } :=
  ⟨(c5_show_noop_and_reuse cfgW shownW).1 rfl,
   (c5_show_noop_and_reuse cfgW { shownW with isOpen := false }).2
     nodeW
     (popperCreate 1 2
       { placement := "top", arrowElement := arrowSelector, boundariesElement := none })
     rfl rfl rfl⟩

/-- C7: on a first show (closed, no node yet, well-formed template,
container resolving to an element), a non-empty title attribute on the
reference is injected into the created node and overrides whatever the
configured default title is; when the attribute is absent or empty, the
configured non-empty default string is injected instead. -/
theorem c7_title_precedence (cfg : Config) (s : State) (cid : ElemId)
    (hopen : s.isOpen = false) (hnode : s.tooltipNode = none)
    (hinner : cfg.templateHasInner = true)
    (hcont : appendTargetOf cfg = AppendTarget.elemT cid) :
    (∀ a, cfg.reference.titleAttr = some a → a ≠ "" →
      ∃ s', _show cfg s = Except.ok s' ∧
        s'.tooltipNode = some
          { id := cfg.freshNodeId, display := "", content := a, parentNode := some cid }) ∧
    ((cfg.reference.titleAttr = none ∨ cfg.reference.titleAttr = some "") →
      ∀ d, cfg.options.title = TitleVal.str d → d ≠ "" →
      ∃ s', _show cfg s = Except.ok s' ∧
        s'.tooltipNode = some
          { id := cfg.freshNodeId, display := "", content := d, parentNode := some cid }) := by
  constructor
  · intro a ha hne
    refine ⟨{ s with
        isOpen := true
        tooltipNode := some
          { id := cfg.freshNodeId, display := "", content := a, parentNode := some cid }
        popperInstance := some (popperCreate cfg.reference.id cfg.freshNodeId
          { placement := cfg.options.placement, arrowElement := arrowSelector,
            boundariesElement := cfg.options.boundariesElement }) }, ?_, rfl⟩
    simp [_show, hopen, hnode, ha, hne, jsOrTitle, titleTruthy, _create, hinner,
      _append, hcont, popperCreate]
  · intro hattr d hd hne
    rcases hattr with h | h <;>
    · refine ⟨{ s with
          isOpen := true
          tooltipNode := some
            { id := cfg.freshNodeId, display := "", content := d, parentNode := some cid }
          popperInstance := some (popperCreate cfg.reference.id cfg.freshNodeId
            { placement := cfg.options.placement, arrowElement := arrowSelector,
              boundariesElement := cfg.options.boundariesElement }) }, ?_, rfl⟩
      simp [_show, hopen, hnode, h, hd, hne, jsOrTitle, titleTruthy, _create, hinner,
        _append, hcont, popperCreate]

/-- A controller with both a title attribute (value A) and a configured
default title (value D), and an explicit element container. -/
def cfgAttrAndDefault : Config :=
  { reference := { id := 1, parent := some 0, titleAttr := some "A" }
    options := { DEFAULT_OPTIONS with title := TitleVal.str "D", container := Container.el 7 }
    templateHasInner := true
    freshNodeId := 2 }

/-- A controller with no title attribute and a configured default title
(value D), and an explicit element container. -/
def cfgDefaultOnly : Config :=
  { reference := { id := 1, parent := some 0, titleAttr := none }
    options := { DEFAULT_OPTIONS with title := TitleVal.str "D", container := Container.el 7 }
    templateHasInner := true
    freshNodeId := 2 }

/-- Witness for c7_title_precedence: the attribute value A wins over the
configured default D, and without the attribute D is used. -/
theorem c7_witness :
    (∃ s', _show cfgAttrAndDefault (initTooltip cfgAttrAndDefault) = Except.ok s' ∧
      s'.tooltipNode = some { id := 2, display := "", content := "A", parentNode := some 7 }) ∧
    (∃ s', _show cfgDefaultOnly (initTooltip cfgDefaultOnly) = Except.ok s' ∧
      s'.tooltipNode = some { id := 2, display := "", content := "D", parentNode := some 7 }) :=
  ⟨(c7_title_precedence cfgAttrAndDefault (initTooltip cfgAttrAndDefault) 7
      rfl rfl rfl rfl).1 "A" rfl (by decide),
   (c7_title_precedence cfgDefaultOnly (initTooltip cfgDefaultOnly) 7
      rfl rfl rfl rfl).2 (Or.inl rfl) "D" rfl (by decide)⟩

/-- C8: whenever a dispose() call returns normally, it has cleared the
floating node reference, and a second dispose() on the resulting state is
a no-op that returns the state unchanged. -/
theorem c8_dispose_twice (s s1 : State) (h : _dispose s = Except.ok s1) :
    s1.tooltipNode = none ∧ _dispose s1 = Except.ok s1 := by
  obtain ⟨o, tn, pi, rl, tl, ev, nf⟩ := s
  cases tn with
  | none =>
    simp [_dispose] at h
    subst h
    exact ⟨rfl, by simp [_dispose]⟩
  | some t =>
    obtain ⟨tid, tdisp, tcont, tpar⟩ := t
    cases pi with
    | none => cases o <;> simp [_dispose, _hide] at h
    | some p =>
      cases tpar with
      | none => cases o <;> simp [_dispose, _hide] at h
      | some pid =>
        cases o <;> simp [_dispose, _hide] at h <;> subst h <;>
          exact ⟨rfl, by simp [_dispose]⟩

/-- Witness for c8_dispose_twice at the state reached by show() on cfgW. -/
theorem c8_witness :
    disposedW.tooltipNode = none ∧ _dispose disposedW = Except.ok disposedW :=
  c8_dispose_twice shownW disposedW rfl

/-- C9: whenever dispose() returns normally, the listener set of the
reference element is exactly what it was before the call, and the only
listener removals performed are the recorded (event, callback) pairs
removed from the floating element's listener set. -/
theorem c9_dispose_reference_listeners_unchanged (s s1 : State)
    (h : _dispose s = Except.ok s1) :
    s1.refListeners = s.refListeners ∧
    (∀ t, s.tooltipNode = some t →
      s1.tooltipNodeListeners = removeRecorded s.events s.tooltipNodeListeners) := by
  obtain ⟨o, tn, pi, rl, tl, ev, nf⟩ := s
  cases tn with
  | none =>
    simp [_dispose] at h
    subst h
    exact ⟨rfl, by simp⟩
  | some t =>
    obtain ⟨tid, tdisp, tcont, tpar⟩ := t
    cases pi with
    | none => cases o <;> simp [_dispose, _hide] at h
    | some p =>
      cases tpar with
      | none => cases o <;> simp [_dispose, _hide] at h
      | some pid =>
        cases o <;> simp [_dispose, _hide] at h <;> subst h <;>
          exact ⟨rfl, fun t ht => rfl⟩

/-- Witness for c9_dispose_reference_listeners_unchanged on the cfgW run:
the four trigger listeners attached to the reference survive dispose. -/
theorem c9_witness :
    disposedW.refListeners = shownW.refListeners ∧
    (∀ t, shownW.tooltipNode = some t →
      disposedW.tooltipNodeListeners =
        removeRecorded shownW.events shownW.tooltipNodeListeners) :=
  c9_dispose_reference_listeners_unchanged shownW disposedW rfl

/-- Every normal return of _show leaves the state unchanged, or leaves no
tooltip node, or leaves both the tooltip node and the popper instance
present. -/
theorem show_ok_node_cases {cfg : Config} {s s1 : State}
    (h : _show cfg s = Except.ok s1) :
    s1 = s ∨ s1.tooltipNode = none ∨
    (s1.tooltipNode.isSome = true ∧ s1.popperInstance.isSome = true) := by
  obtain ⟨o, tn, pi, rl, tl, ev, nf⟩ := s
  cases o with
  | true =>
    simp [_show] at h
    subst h
    exact Or.inl rfl
  | false =>
    cases tn with
    | some t =>
      cases pi with
      | none => simp [_show] at h
      | some p =>
        simp [_show] at h
        subst h
        exact Or.inr (Or.inr ⟨rfl, rfl⟩)
    | none =>
      by_cases ht :
          titleTruthy (jsOrTitle cfg.reference.titleAttr cfg.options.title) = true
      · cases hc :
            _create cfg (jsOrTitle cfg.reference.titleAttr cfg.options.title) with
        | error e => simp [_show, ht, hc] at h
        | ok tnode =>
          cases ha : _append tnode (appendTargetOf cfg) with
          | error e => simp [_show, ht, hc, ha] at h
          | ok t2 =>
            simp [_show, ht, hc, ha] at h
            subst h
            exact Or.inr (Or.inr ⟨rfl, rfl⟩)
      · simp at ht
        simp [_show, ht] at h
        subst h
        exact Or.inr (Or.inl rfl)

/-- Every normal return of _hide leaves the state unchanged, or keeps the
popper instance and keeps the tooltip node present (it was present
before). -/
theorem hide_ok_node_cases {s s1 : State} (h : _hide s = Except.ok s1) :
    s1 = s ∨
    (s1.popperInstance = s.popperInstance ∧ s1.tooltipNode.isSome = true ∧
      s.tooltipNode.isSome = true) := by
  obtain ⟨o, tn, pi, rl, tl, ev, nf⟩ := s
  cases o with
  | false =>
    simp [_hide] at h
    subst h
    exact Or.inl rfl
  | true =>
    cases tn with
    | none => simp [_hide] at h
    | some t =>
      simp [_hide] at h
      subst h
      exact Or.inr ⟨rfl, rfl, rfl⟩

/-- Every normal return of _dispose leaves no tooltip node. -/
theorem dispose_ok_node {s s1 : State} (h : _dispose s = Except.ok s1) :
    s1.tooltipNode = none := by
  obtain ⟨o, tn, pi, rl, tl, ev, nf⟩ := s
  cases tn with
  | none =>
    simp [_dispose] at h
    subst h
    rfl
  | some t =>
    obtain ⟨tid, tdisp, tcont, tpar⟩ := t
    cases pi with
    | none => cases o <;> simp [_dispose, _hide] at h
    | some p =>
      cases tpar with
      | none => cases o <;> simp [_dispose, _hide] at h
      | some pid =>
        cases o <;> simp [_dispose, _hide] at h <;> subst h <;> rfl

/-- C4 (amended): at every reachable state of a controller, if the
floating node is present then the positioning-engine handle is present.
(The converse direction of the original claim fails after dispose, which
destroys the handle and clears the node but never clears the handle
reference; see the counterexample.) -/
theorem c4_node_implies_handle {cfg : Config} {s : State} (h : Reachable cfg s) :
    s.tooltipNode.isSome = true → s.popperInstance.isSome = true := by
  induction h with
  | init =>
    intro hn
    simp [initTooltip] at hn
  | step op hr heq ih =>
    cases op with
    | showOp =>
      simp only [applyOp] at heq
      rcases show_ok_node_cases heq with h1 | h1 | h1
      · subst h1; exact ih
      · intro hn; rw [h1] at hn; simp at hn
      · intro _; exact h1.2
    | hideOp =>
      simp only [applyOp] at heq
      rcases hide_ok_node_cases heq with h1 | h1
      · subst h1; exact ih
      · intro _; rw [h1.1]; exact ih h1.2.2
    | toggleOp =>
      simp only [applyOp] at heq
      split at heq
      · rcases hide_ok_node_cases heq with h1 | h1
        · subst h1; exact ih
        · intro _; rw [h1.1]; exact ih h1.2.2
      · rcases show_ok_node_cases heq with h1 | h1 | h1
        · subst h1; exact ih
        · intro hn; rw [h1] at hn; simp at hn
        · intro _; exact h1.2
    | disposeOp =>
      simp only [applyOp] at heq
      intro hn
      rw [dispose_ok_node heq] at hn
      simp at hn

/-- Witness for c4_node_implies_handle at the reachable state after a
first successful show() on cfgW. -/
theorem c4_witness : shownW.popperInstance.isSome = true :=
  c4_node_implies_handle
    (Reachable.step Op.showOp (Reachable.init : Reachable cfgW (initTooltip cfgW))
      (by rfl)) (by rfl)

end Tooltip
